import Mathlib

/-!
Verification of the CEI PDF signer web application (src/app.py).

The Flask route handlers are shallowly embedded as pure Lean functions.
External effects (the PKCS#11 driver, the PDF library, the filesystem)
are supplied through explicit environment records whose fields describe
the outcome of each external call; the handlers' own control flow,
string handling, arithmetic and error translation are translated from
the Python source.  Python strings are modelled as `List Char`, bytes
as `List Nat`, and Python floats as rationals.
-/

/-! ### Python string primitives -/

/-- Whitespace as stripped by Python `str.strip()` (ASCII subset). -/
def pyIsSpace (c : Char) : Bool :=
  c = ' ' || c = '\t' || c = '\n' || c = '\r' || c = '\x0b' || c = '\x0c'

/-- Python `str.strip()`: drop leading and trailing whitespace. -/
def pyStrip (s : List Char) : List Char :=
  ((s.dropWhile pyIsSpace).reverse.dropWhile pyIsSpace).reverse

/-- Python `str.upper()` (ASCII letters). -/
def pyUpper (s : List Char) : List Char :=
  s.map Char.toUpper

/-- Does `hay` start with `needle`? -/
def leadsWith : List Char → List Char → Bool
  | [], _ => true
  | _ :: _, [] => false
  | a :: as, b :: bs => a = b && leadsWith as bs

/-- Python `needle in hay` for strings: substring containment. -/
def hasSub : List Char → List Char → Bool
  | [], needle => leadsWith needle []
  | a :: t, needle => leadsWith needle (a :: t) || hasSub t needle

/-- Decimal digit to character. -/
def digitChar : Nat → Char
  | 0 => '0' | 1 => '1' | 2 => '2' | 3 => '3' | 4 => '4'
  | 5 => '5' | 6 => '6' | 7 => '7' | 8 => '8' | _ => '9'

/-- Python `str(n)` for a natural number: decimal representation. -/
def natChars (n : Nat) : List Char :=
  if n = 0 then ['0'] else ((Nat.digits 10 n).map digitChar).reverse

/-- Python `str(i)` for an integer. -/
def intChars (i : Int) : List Char :=
  if i < 0 then '-' :: natChars i.natAbs else natChars i.toNat

/-- Join string pieces with a separator (for Python list repr). -/
def joinSep (sep : List Char) : List (List Char) → List Char
  | [] => []
  | [x] => x
  | x :: y :: t => x ++ sep ++ joinSep sep (y :: t)

/-- Python `repr` of a list of ints, as produced by an f-string. -/
def intListChars (l : List Int) : List Char :=
  ['['] ++ joinSep (", ".data) (l.map intChars) ++ [']']

/-! ### Base64 (Python `base64.b64encode`, standard alphabet) -/

/-- The standard base64 alphabet. -/
def b64alphabet : List Char :=
  ("ABCDEFGHIJKLMNOPQRSTUVWXYZabcdefghijklmnopqrstuvwxyz0123456789+/").data

/-- Character for a 6-bit group. -/
def b64char (n : Nat) : Char :=
  b64alphabet.getD n 'A'

/-- `base64.b64encode` over a byte list, with `=` padding. -/
def b64encode : List Nat → List Char
  | [] => []
  | [a] => [b64char (a / 4), b64char (a % 4 * 16), '=', '=']
  | [a, b] => [b64char (a / 4), b64char (a % 4 * 16 + b / 16), b64char (b % 16 * 4), '=']
  | a :: b :: c :: rest =>
      b64char (a / 4) :: b64char (a % 4 * 16 + b / 16) ::
      b64char (b % 16 * 4 + c / 64) :: b64char (c % 64) :: b64encode rest

/-! ### PKCS#11 library path resolution (src/app.py, get_pkcs11_lib_path) -/

/-- Built-in default driver path (src/app.py line 60). -/
def DEFAULT_PKCS11_LIB : List Char :=
  ("/Library/Application Support/com.idemia.idplug/lib/libidplug-pkcs11.2.7.0.dylib").data

/-- `get_pkcs11_lib_path(custom_path)`: the custom path (stripped) when it is
truthy and strips to a non-empty string, else `os.environ.get(PKCS11_LIB, default)`.
`envPKCS11LIB` is the environment variable (none when unset). -/
def get_pkcs11_lib_path (custom_path : Option (List Char))
    (envPKCS11LIB : Option (List Char)) : List Char :=
  match custom_path with
  | some p => if !p.isEmpty && !(pyStrip p).isEmpty then pyStrip p
              else envPKCS11LIB.getD DEFAULT_PKCS11_LIB
  | none => envPKCS11LIB.getD DEFAULT_PKCS11_LIB

/-! ### PKCS#11 error translation -/

/-- A Python exception crossing a handler's `try` boundary: either an error
from the PKCS#11 layer (carrying `str(e)`) or any other exception
(carrying `type(e).__name__` and `str(e)`). -/
inductive PyErr where
  | pkcs11 (msg : List Char)
  | other (ty msg : List Char)
deriving DecidableEq

/-- The `except PyKCS11.PyKCS11Error` arm of `api_get_certificate`
(src/app.py lines 217-229): substring-match the driver's error text. -/
def classify_cert_pkcs11_error (slot_id : Int) (error_msg : List Char) :
    Nat × List Char :=
  if hasSub error_msg ("CKR_PIN_INCORRECT").data then
    (401, ("Incorrect PIN. Please check your PIN and try again.").data)
  else if hasSub error_msg ("CKR_PIN_LOCKED").data then
    (401, ("PIN is locked. Too many incorrect attempts.").data)
  else if hasSub error_msg ("CKR_TOKEN_NOT_PRESENT").data then
    (500, ("Smart card not detected. Please insert your CEI card.").data)
  else if hasSub error_msg ("CKR_SLOT_ID_INVALID").data then
    (500, ("Invalid slot ").data ++ intChars slot_id ++
      (". Please click \"Detect Smart Card\" and select the correct slot.").data)
  else if hasSub error_msg ("CKR_USER_NOT_LOGGED_IN").data then
    (500, ("Session expired. Please try again.").data)
  else
    (500, ("Smart card error: ").data ++ error_msg)

/-- The `except pkcs11.PKCS11Error` arm of `api_sign_pdf`
(src/app.py lines 423-428). -/
def classify_sign_pkcs11_error (error_type error_msg : List Char) :
    Nat × List Char :=
  if hasSub (pyUpper error_msg) ("PIN").data then
    (401, ("Incorrect PIN or PIN locked").data)
  else
    (500, ("Smart card error (").data ++ error_type ++ ("): ").data ++ error_msg)

/-! ### Request field values

Numeric request fields pass through Python `int(...)` / `float(...)`,
which raise (e.g. `ValueError`) on non-numeric input.  A field is either
absent (the Python `.get` default applies), a parsed value, or a value
on which the conversion raises the recorded exception type. -/

/-- A field converted with `int(...)`. -/
inductive IntField where
  | missing
  | val (n : Int)
  | malformed (ty : List Char)
deriving DecidableEq

/-- A field converted with `float(...)`. -/
inductive NumField where
  | missing
  | val (q : ℚ)
  | malformed (ty : List Char)
deriving DecidableEq

/-- Evaluate `int(request.get(key, dflt))`: the exception type on failure. -/
def getInt (f : IntField) (dflt : Int) : Except (List Char) Int :=
  match f with
  | .missing => .ok dflt
  | .val n => .ok n
  | .malformed ty => .error ty

/-- Evaluate `float(request.get(key, dflt))`. -/
def getQ (f : NumField) (dflt : ℚ) : Except (List Char) ℚ :=
  match f with
  | .missing => .ok dflt
  | .val q => .ok q
  | .malformed ty => .error ty

/-! ### Certificate handler (src/app.py, api_get_certificate) -/

/-- The raw `CKA_LABEL` value returned by `getAttributeValue`; PyKCS11 may
return a string, a byte string (modelled at the decoded-character level)
or a list of character codes. -/
inductive RawLabel where
  | empty
  | str (s : List Char)
  | ints (l : List Nat)
deriving DecidableEq

/-- Label normalisation, src/app.py lines 178-188: a falsy value becomes
`Unknown`, a list of ints is mapped through `chr`. -/
def decode_label : RawLabel → List Char
  | .empty => ("Unknown").data
  | .str s => if s.isEmpty then ("Unknown").data else s
  | .ints l => if l.isEmpty then ("Unknown").data else l.map Char.ofNat

/-- Fields extracted by `cryptography.x509` when the DER parses. -/
structure ParsedCert where
  subject : List Char
  issuer : List Char
  valid_until : List Char
deriving DecidableEq

/-- One certificate object found on the token: its DER bytes, raw label,
and the result of the x509 parse attempt (none when parsing raises). -/
structure CertData where
  der : List Nat
  raw_label : RawLabel
  parsed : Option ParsedCert
deriving DecidableEq

/-- One entry of the JSON `certificates` list; the subject, issuer and
expiry keys are present only when the x509 parse succeeded
(src/app.py lines 199-210). -/
structure CertEntry where
  label : List Char
  subject : Option (List Char)
  issuer : Option (List Char)
  valid_until : Option (List Char)
  der_base64 : List Char
deriving DecidableEq

/-- Build a JSON entry from one certificate object. -/
def make_cert_entry (c : CertData) : CertEntry :=
  match c.parsed with
  | some p => ⟨decode_label c.raw_label, some p.subject, some p.issuer,
      some p.valid_until, b64encode c.der⟩
  | none => ⟨decode_label c.raw_label, none, none, none, b64encode c.der⟩

/-- The JSON body of a POST /api/certificate request. -/
structure CertBody where
  slot : IntField
  pin : Option (List Char)
  pkcs11_path : Option (List Char)
deriving DecidableEq

/-- Environment of one /api/certificate request: the request body plus the
outcome of each external PKCS#11 call (`none` meaning the call succeeds). -/
structure CertEnv where
  pkcs11_available : Bool
  body : Option CertBody
  envPKCS11LIB : Option (List Char)
  lib_load : Option PyErr
  available_slots : List Int
  open_session : Option PyErr
  login : Option PyErr
  find_objects : Option PyErr
  certs : List CertData
  logout : Option PyErr
deriving DecidableEq

/-- Result value of the certificate handler. -/
inductive CertOutcome where
  | json (status : Nat) (error : List Char)
  | certificates (l : List CertEntry)
  | uncaught (ty : List Char)
deriving DecidableEq

/-- Handler result together with whether a PKCS#11 session opened by the
handler is still open when it returns. -/
structure CertResult where
  outcome : CertOutcome
  session_open : Bool
deriving DecidableEq

/-- Translate an exception caught by `api_get_certificate`'s `except` arms
(src/app.py lines 217-233): PKCS#11 errors are classified, any other
exception yields a 500 whose message is `Error: str(e)`. -/
def cert_exc (slot_id : Int) (e : PyErr) : CertOutcome :=
  match e with
  | .pkcs11 msg =>
      let r := classify_cert_pkcs11_error slot_id msg
      .json r.1 r.2
  | .other _ msg => .json 500 (("Error: ").data ++ msg)

/-- The POST /api/certificate handler (src/app.py lines 140-233).  Note the
`int(data.get(slot, 2))` conversion happens before the `try` block, and
there is no `finally`: `except` paths after `openSession` succeeds return
with the session still open. -/
def api_get_certificate (env : CertEnv) : CertResult :=
  if !env.pkcs11_available then ⟨.json 500 (("PyKCS11 not installed").data), false⟩
  else match env.body with
  | none => ⟨.json 400 (("Invalid request data").data), false⟩
  | some body =>
    match getInt body.slot 2 with
    | .error ty => ⟨.uncaught ty, false⟩
    | .ok slot_id =>
      let pin := pyStrip (body.pin.getD [])
      if pin.isEmpty then ⟨.json 400 (("PIN required").data), false⟩
      else
        match env.lib_load with
        | some e => ⟨cert_exc slot_id e, false⟩
        | none =>
          if slot_id ∉ env.available_slots then
            ⟨.json 400 (("Slot ").data ++ intChars slot_id ++
              (" not available. Available slots: ").data ++
              intListChars env.available_slots ++
              (". Please click \"Detect Smart Card\" again.").data), false⟩
          else match env.open_session with
          | some e => ⟨cert_exc slot_id e, false⟩
          | none =>
            match env.login with
            | some e => ⟨cert_exc slot_id e, true⟩
            | none =>
              match env.find_objects with
              | some e => ⟨cert_exc slot_id e, true⟩
              | none =>
                let cert_info := env.certs.map make_cert_entry
                match env.logout with
                | some e => ⟨cert_exc slot_id e, true⟩
                | none => ⟨.certificates cert_info, false⟩

/-! ### Sign handler (src/app.py, api_sign_pdf) -/

/-- One entry of the `signature_boxes` JSON list; each field passes
through `int(...)` or `float(...)` with the defaults of
src/app.py lines 264-268. -/
structure SigBox where
  page : IntField
  x : NumField
  y : NumField
  width : NumField
  height : NumField
deriving DecidableEq

/-- The `signature_boxes` form field: missing (the default string `[]`
parses to an empty list), malformed JSON (`json.loads` raises and the
`except` arm substitutes `[]`), or a parsed list of boxes. -/
inductive BoxesField where
  | missing
  | malformed
  | parsed (bs : List SigBox)
deriving DecidableEq

/-- Lines 255-259: `json.loads` with `except: signature_boxes = []`. -/
def parse_boxes : BoxesField → List SigBox
  | .missing => []
  | .malformed => []
  | .parsed bs => bs

/-- The computed signature placement (src/app.py lines 261-276). -/
structure Geometry where
  visible : Bool
  sig_page : Int
  sig_x : ℚ
  sig_y : ℚ
  sig_width : ℚ
  sig_height : ℚ
deriving DecidableEq

/-- Lines 261-276: the first signature box wins and forces visibility;
with no boxes, the individual form fields (with their defaults) are
used.  A conversion failure propagates the exception type. -/
def compute_geometry (boxes : List SigBox) (form_visible : Option (List Char))
    (fpage : IntField) (fx fy fw fh : NumField) :
    Except (List Char) Geometry :=
  match boxes with
  | box :: _ => do
      let p ← getInt box.page 1
      let x ← getQ box.x 50
      let y ← getQ box.y 50
      let w ← getQ box.width 200
      let h ← getQ box.height 70
      .ok ⟨true, p - 1, x, y, w, h⟩
  | [] => do
      let visible := form_visible.getD (("true").data) = ("true").data
      let p ← getInt fpage 1
      let x ← getQ fx 50
      let y ← getQ fy 50
      let w ← getQ fw 200
      let h ← getQ fh 70
      .ok ⟨visible, p - 1, x, y, w, h⟩

/-- A page media box `[x0, y0, x1, y1]`. -/
abbrev MediaBox := ℚ × ℚ × ℚ × ℚ

/-- Python list indexing with negative-index wrap-around; `none` models
an `IndexError`. -/
def pyIndex {α : Type} (l : List α) (i : Int) : Option α :=
  let j := if i < 0 then (l.length : Int) + i else i
  if 0 ≤ j then l.get? j.toNat else none

/-- Page height from the `/MediaBox` entry, with the default
`[0, 0, 612, 792]` when the key is absent (src/app.py lines 343-344). -/
def page_height_of (mb : Option MediaBox) : ℚ :=
  let b := mb.getD (0, 0, 612, 792)
  b.2.2.2 - b.2.1

/-- Environment of one /api/sign request: the multipart form plus the
outcome of each external call (`none` meaning success). -/
structure SignEnv where
  pyhanko_available : Bool
  has_pdf : Bool
  secure_name : List Char
  form_slot : IntField
  form_pin : Option (List Char)
  form_pkcs11_path : Option (List Char)
  form_visible : Option (List Char)
  form_page : IntField
  form_x : NumField
  form_y : NumField
  form_width : NumField
  form_height : NumField
  signature_boxes : BoxesField
  envPKCS11LIB : Option (List Char)
  lib_load : Option PyErr
  slot_ids : List Int
  open_session : Option PyErr
  reader : Option PyErr
  pdf_pages : List (Option MediaBox)
  sign_result : Except PyErr (List Nat)

/-- Result value of the sign handler. -/
inductive SignOutcome where
  | json (status : Nat) (error : List Char)
  | signed (filename : List Char) (data : List Char) (size : Nat)
  | uncaught (ty : List Char)
deriving DecidableEq

/-- Sign handler result: the response, whether a session opened by the
handler is still open at return, and the `(on_page, box)` rectangle
passed to `append_signature_field` (none when no field was appended). -/
structure SignResult where
  outcome : SignOutcome
  session_open : Bool
  appended_field : Option (Int × (ℚ × ℚ × ℚ × ℚ))
deriving DecidableEq

/-- Translate an exception caught by `api_sign_pdf`'s `except` arms
(src/app.py lines 423-434): PKCS#11 errors are classified; any other
exception yields 500 with message `{type}: {str(e) or type}`. -/
def handle_sign_exc (e : PyErr) : SignOutcome :=
  match e with
  | .pkcs11 msg =>
      let r := classify_sign_pkcs11_error (("PKCS11Error").data) msg
      .json r.1 r.2
  | .other ty msg =>
      .json 500 (ty ++ (": ").data ++ (if msg.isEmpty then ty else msg))

/-- The `try ... except ... finally` body of `api_sign_pdf`
(src/app.py lines 282-441).  Every return path runs the `finally`
block, so the session is never left open. -/
def sign_try (env : SignEnv) (slot_id : Int) (_pin : List Char)
    (g : Geometry) : SignResult :=
  match env.lib_load with
  | some e => ⟨handle_sign_exc e, false, none⟩
  | none =>
    if slot_id ∉ env.slot_ids then
      ⟨.json 400 (("Slot ").data ++ intChars slot_id ++ (" not found").data),
        false, none⟩
    else match env.open_session with
    | some e => ⟨handle_sign_exc e, false, none⟩
    | none =>
      match env.reader with
      | some e => ⟨handle_sign_exc e, false, none⟩
      | none =>
        let appendRes : Except PyErr (Option (Int × (ℚ × ℚ × ℚ × ℚ))) :=
          if g.visible then
            match pyIndex env.pdf_pages g.sig_page with
            | none => .error (.other (("IndexError").data)
                (("list index out of range").data))
            | some mb =>
              let page_height := page_height_of mb
              let pdf_y := page_height - g.sig_y - g.sig_height
              .ok (some (g.sig_page,
                (g.sig_x, pdf_y, g.sig_x + g.sig_width, pdf_y + g.sig_height)))
          else .ok none
        match appendRes with
        | .error e => ⟨handle_sign_exc e, false, none⟩
        | .ok fld =>
          match env.sign_result with
          | .error e => ⟨handle_sign_exc e, false, fld⟩
          | .ok out =>
            ⟨.signed (("signed_").data ++ env.secure_name) (b64encode out)
              out.length, false, fld⟩

/-- The POST /api/sign handler (src/app.py lines 236-441).  The `int` /
`float` conversions of `slot`, the signature-box fields and the `page`,
`x`, `y`, `width`, `height` form fields all run before the `try` block
(lines 247, 262-276), so a conversion failure escapes the handler. -/
def api_sign_pdf (env : SignEnv) : SignResult :=
  if !env.pyhanko_available then
    ⟨.json 500 (("pyHanko not installed").data), false, none⟩
  else if !env.has_pdf then
    ⟨.json 400 (("No PDF file provided").data), false, none⟩
  else
    match getInt env.form_slot 2 with
    | .error ty => ⟨.uncaught ty, false, none⟩
    | .ok slot_id =>
      let pin := pyStrip (env.form_pin.getD [])
      match compute_geometry (parse_boxes env.signature_boxes) env.form_visible
          env.form_page env.form_x env.form_y env.form_width env.form_height with
      | .error ty => ⟨.uncaught ty, false, none⟩
      | .ok g =>
        if pin.isEmpty then ⟨.json 400 (("PIN required").data), false, none⟩
        else sign_try env slot_id pin g

/-! ### Save-files handler (src/app.py, api_save_files) -/

/-- Python `os.path.splitext` on a bare file name: split off the extension
at the last dot, except when every character before that dot is a dot
(so `.bashrc` has no extension). -/
def pySplitext (s : List Char) : List Char × List Char :=
  let r := s.reverse
  let extRev := r.takeWhile (fun c => c ≠ '.')
  if extRev.length = r.length then (s, [])
  else if (r.drop (extRev.length + 1)).all (fun c => c = '.') then (s, [])
  else ((r.drop (extRev.length + 1)).reverse, '.' :: extRev.reverse)

/-- Candidate name `f"{base}_{counter}{ext}"` tried by the dedup loop. -/
def nextName (base : List Char) (k : Nat) (ext : List Char) : List Char :=
  base ++ '_' :: (natChars k ++ ext)

/-- The `while os.path.exists(file_path)` loop of src/app.py lines
467-470 / 485-488, with enough fuel to try more candidates than there
are existing files. -/
def dedupLoop (existing : List (List Char)) (base ext : List Char) :
    Nat → List Char → Nat → List Char
  | 0, cur, _ => cur
  | fuel + 1, cur, k =>
      if cur ∈ existing then dedupLoop existing base ext fuel (nextName base k ext) (k + 1)
      else cur

/-- Deduplicate `path` against the existing names: keep appending
`_1`, `_2`, ... before the extension until the name is fresh. -/
def dedup_name (existing : List (List Char)) (path : List Char) : List Char :=
  dedupLoop existing (pySplitext path).1 (pySplitext path).2
    (existing.length + 1) path 1

/-- One entry of the `files` JSON list: a name and the (decoded) bytes.
The base64 transport of the content is abstracted away; no claim
depends on the byte-level decoding. -/
structure SaveFile where
  name : List Char
  data : List Nat
deriving DecidableEq

/-- Environment of one /api/save-files request: the body (`none` when the
JSON body is missing or has no `files` key) and the names already
present in the Downloads folder. -/
structure SaveEnv where
  body : Option (List SaveFile)
  downloads_existing : List (List Char)
deriving DecidableEq

/-- Result of the save-files handler: the response plus what was written.
`written_single` records a directly saved file, `zip_written` records
the archive name and its entries in order. -/
structure SaveResult where
  status : Nat
  error : Option (List Char)
  saved_files : List (List Char)
  written_single : Option (List Char × List Nat)
  zip_written : Option (List Char × List (List Char × List Nat))
deriving DecidableEq

/-- The POST /api/save-files handler (src/app.py lines 444-508): one file
is saved directly under a deduplicated name; otherwise (zero or two or
more files) a zip named `signed_documents.zip` (deduplicated) is
written, whose entries keep the caller-supplied names verbatim. -/
def api_save_files (env : SaveEnv) : SaveResult :=
  match env.body with
  | none => ⟨400, some (("No files provided").data), [], none, none⟩
  | some files_data =>
    match files_data with
    | [f] =>
      let file_path := dedup_name env.downloads_existing f.name
      ⟨200, none, [file_path], some (file_path, f.data), none⟩
    | fs =>
      let zip_path := dedup_name env.downloads_existing (("signed_documents.zip").data)
      ⟨200, none, [zip_path], none, some (zip_path, fs.map (fun f => (f.name, f.data)))⟩

/-! ### Status handler (src/app.py, api_status) -/

/-- Environment of one GET /api/status request; `path_exists` is the
filesystem's answer to `os.path.exists`. -/
structure StatusEnv where
  pkcs11_available : Bool
  pyhanko_available : Bool
  envPKCS11LIB : Option (List Char)
  path_exists : List Char → Bool

/-- The JSON object returned by `api_status`. -/
structure StatusResponse where
  pkcs11_available : Bool
  pyhanko_available : Bool
  pkcs11_lib_path : List Char
  pkcs11_lib_exists : Bool
deriving DecidableEq

/-- The GET /api/status handler (src/app.py lines 80-89). -/
def api_status (env : StatusEnv) : StatusResponse :=
  let lib_path := get_pkcs11_lib_path none env.envPKCS11LIB
  ⟨env.pkcs11_available, env.pyhanko_available, lib_path,
    env.path_exists lib_path⟩

/-! ### Concrete request environments for witnesses and counterexamples -/

/-- A baseline /api/certificate environment in which every external call
succeeds and the token holds one parseable certificate. -/
def certEnvBase : CertEnv :=
  { pkcs11_available := true
    body := some { slot := .val 2, pin := some (("1234").data), pkcs11_path := none }
    envPKCS11LIB := none
    lib_load := none
    available_slots := [2]
    open_session := none
    login := none
    find_objects := none
    certs := [{ der := [48, 130, 1, 10]
                raw_label := .str (("Authentication").data)
                parsed := some { subject := ("CN=POPESCU ION").data
                                 issuer := ("CN=CEI Root CA").data
                                 valid_until := ("2030-01-01T00:00:00+00:00").data } }]
    logout := none }

/-- A baseline /api/sign environment in which every external call succeeds. -/
def signEnvBase : SignEnv :=
  { pyhanko_available := true
    has_pdf := true
    secure_name := ("doc.pdf").data
    form_slot := .val 2
    form_pin := some (("1234").data)
    form_pkcs11_path := none
    form_visible := none
    form_page := .missing
    form_x := .missing
    form_y := .missing
    form_width := .missing
    form_height := .missing
    signature_boxes := .missing
    envPKCS11LIB := none
    lib_load := none
    slot_ids := [2]
    open_session := none
    reader := none
    pdf_pages := [some (0, 0, 612, 792)]
    sign_result := .ok [37, 80, 68, 70, 45] }

/-! ### Helper lemmas -/

/-- `cert_exc` never produces an uncaught outcome. -/
theorem cert_exc_ne_uncaught (s : Int) (e : PyErr) (t : List Char) :
    cert_exc s e ≠ .uncaught t := by
  cases e <;> simp [cert_exc]

/-- `handle_sign_exc` never produces an uncaught outcome. -/
theorem handle_sign_exc_ne_uncaught (e : PyErr) (t : List Char) :
    handle_sign_exc e ≠ .uncaught t := by
  cases e <;> simp [handle_sign_exc]

/-- Stripping the empty string gives the empty string. -/
theorem pyStrip_nil : pyStrip [] = [] := rfl

/-! ### C5 -/

/-- C5: the PKCS#11 driver path precedence: a request-supplied path whose
stripped value is non-empty wins (stripped); otherwise the `PKCS11_LIB`
environment variable when set; otherwise the built-in default. -/
theorem claim_C5_path_precedence :
    (∀ p env, pyStrip p ≠ [] → get_pkcs11_lib_path (some p) env = pyStrip p)
    ∧ (∀ p v, pyStrip p = [] → get_pkcs11_lib_path (some p) (some v) = v)
    ∧ (∀ v, get_pkcs11_lib_path none (some v) = v)
    ∧ (∀ p, pyStrip p = [] → get_pkcs11_lib_path (some p) none = DEFAULT_PKCS11_LIB)
    ∧ get_pkcs11_lib_path none none = DEFAULT_PKCS11_LIB := by
  refine ⟨?_, ?_, fun v => rfl, ?_, rfl⟩
  · intro p env hp
    have hpn : p ≠ [] := by
      intro h
      rw [h, pyStrip_nil] at hp
      exact hp rfl
    simp [get_pkcs11_lib_path, List.isEmpty_iff, hpn, hp]
  · intro p v hp
    simp [get_pkcs11_lib_path, List.isEmpty_iff, hp]
  · intro p hp
    simp [get_pkcs11_lib_path, List.isEmpty_iff, hp]

/-- C5 witness: concrete instances of each precedence level. -/
theorem claim_C5_path_precedence_witness :
    get_pkcs11_lib_path (some ((" /lib/x.so ").data)) (some (("/e.so").data))
      = pyStrip ((" /lib/x.so ").data)
    ∧ get_pkcs11_lib_path (some (("   ").data)) (some (("/e.so").data)) = ("/e.so").data
    ∧ get_pkcs11_lib_path (some (("   ").data)) none = DEFAULT_PKCS11_LIB :=
  ⟨claim_C5_path_precedence.1 _ _ (by decide),
   claim_C5_path_precedence.2.1 _ _ (by decide),
   claim_C5_path_precedence.2.2.2.1 _ (by decide)⟩

/-! ### C8 -/

/-- C8: GET /api/status reports whether the PKCS#11 binding and the signing
library are importable, the configured driver path (resolved with no
per-request override), and whether a file exists at that path. -/
theorem claim_C8_status_report (env : StatusEnv) :
    (api_status env).pkcs11_available = env.pkcs11_available
    ∧ (api_status env).pyhanko_available = env.pyhanko_available
    ∧ (api_status env).pkcs11_lib_path = get_pkcs11_lib_path none env.envPKCS11LIB
    ∧ (api_status env).pkcs11_lib_exists
        = env.path_exists (get_pkcs11_lib_path none env.envPKCS11LIB) :=
  ⟨rfl, rfl, rfl, rfl⟩

/-! ### C4 -/

/-- C4: PKCS#11 errors are classified by substring of the driver text: for
/api/certificate, PIN-incorrect and PIN-locked map to 401, token-absent /
invalid-slot / not-logged-in map to 500, any other PKCS#11 error maps to
500 with the generic smart-card message; for /api/sign, any PKCS#11 error
whose text contains PIN (case-insensitive) maps to 401 and all others to
500.  The last conjunct ties the classification to the handler: a PKCS#11
error raised at login during /api/certificate surfaces exactly as the
classifier prescribes. -/
theorem claim_C4_pkcs11_error_mapping :
    (∀ s m, hasSub m (("CKR_PIN_INCORRECT").data) = true →
      (classify_cert_pkcs11_error s m).1 = 401)
    ∧ (∀ s m, hasSub m (("CKR_PIN_LOCKED").data) = true →
      (classify_cert_pkcs11_error s m).1 = 401)
    ∧ (∀ s m, hasSub m (("CKR_PIN_INCORRECT").data) = false →
      hasSub m (("CKR_PIN_LOCKED").data) = false →
      (hasSub m (("CKR_TOKEN_NOT_PRESENT").data) = true
        ∨ hasSub m (("CKR_SLOT_ID_INVALID").data) = true
        ∨ hasSub m (("CKR_USER_NOT_LOGGED_IN").data) = true) →
      (classify_cert_pkcs11_error s m).1 = 500)
    ∧ (∀ s m, hasSub m (("CKR_PIN_INCORRECT").data) = false →
      hasSub m (("CKR_PIN_LOCKED").data) = false →
      hasSub m (("CKR_TOKEN_NOT_PRESENT").data) = false →
      hasSub m (("CKR_SLOT_ID_INVALID").data) = false →
      hasSub m (("CKR_USER_NOT_LOGGED_IN").data) = false →
      classify_cert_pkcs11_error s m = (500, ("Smart card error: ").data ++ m))
    ∧ (∀ t m, hasSub (pyUpper m) (("PIN").data) = true →
      (classify_sign_pkcs11_error t m).1 = 401)
    ∧ (∀ t m, hasSub (pyUpper m) (("PIN").data) = false →
      (classify_sign_pkcs11_error t m).1 = 500)
    ∧ (∀ env body slot_id m, env.pkcs11_available = true → env.body = some body →
      getInt body.slot 2 = .ok slot_id →
      pyStrip (body.pin.getD []) ≠ [] →
      env.lib_load = none → slot_id ∈ env.available_slots →
      env.open_session = none → env.login = some (.pkcs11 m) →
      (api_get_certificate env).outcome =
        .json (classify_cert_pkcs11_error slot_id m).1
          (classify_cert_pkcs11_error slot_id m).2) := by
  refine ⟨?_, ?_, ?_, ?_, ?_, ?_, ?_⟩
  · intro s m h1
    simp [classify_cert_pkcs11_error, h1]
  · intro s m h2
    by_cases h1 : hasSub m (("CKR_PIN_INCORRECT").data) = true <;>
      simp [classify_cert_pkcs11_error, h1, h2]
  · intro s m h1 h2 _
    by_cases h3 : hasSub m (("CKR_TOKEN_NOT_PRESENT").data) = true <;>
      by_cases h4 : hasSub m (("CKR_SLOT_ID_INVALID").data) = true <;>
      by_cases h5 : hasSub m (("CKR_USER_NOT_LOGGED_IN").data) = true <;>
      simp [classify_cert_pkcs11_error, h1, h2, h3, h4, h5]
  · intro s m h1 h2 h3 h4 h5
    simp [classify_cert_pkcs11_error, h1, h2, h3, h4, h5]
  · intro t m h
    simp [classify_sign_pkcs11_error, h]
  · intro t m h
    simp [classify_sign_pkcs11_error, h]
  · intro env body slot_id m hav hbody hslot hpin hlib hmem hopen hlogin
    have hpinb : (pyStrip (body.pin.getD [])).isEmpty = false := by
      simp [List.isEmpty_iff, hpin]
    simp [api_get_certificate, hav, hbody, hslot, hpinb, hlib, hmem, hopen,
      hlogin, cert_exc]

/-- C4 witness: concrete driver error texts hitting each mapping, and the
login-failure path of the certificate handler. -/
theorem claim_C4_pkcs11_error_mapping_witness :
    (classify_cert_pkcs11_error 2 (("CKR_PIN_INCORRECT (0x000000a0)").data)).1 = 401
    ∧ (classify_cert_pkcs11_error 2 (("CKR_PIN_LOCKED (0x000000a4)").data)).1 = 401
    ∧ (classify_cert_pkcs11_error 2 (("CKR_TOKEN_NOT_PRESENT (0x000000e0)").data)).1 = 500
    ∧ classify_cert_pkcs11_error 2 (("CKR_DEVICE_ERROR (0x00000030)").data)
        = (500, ("Smart card error: ").data ++ ("CKR_DEVICE_ERROR (0x00000030)").data)
    ∧ (classify_sign_pkcs11_error (("PinIncorrect").data) (("Pin incorrect").data)).1 = 401
    ∧ (classify_sign_pkcs11_error (("TokenNotPresent").data) (("No token present").data)).1 = 500
    ∧ (api_get_certificate { certEnvBase with
          login := some (.pkcs11 (("CKR_PIN_LOCKED (0x000000a4)").data)) }).outcome =
        .json (classify_cert_pkcs11_error 2 (("CKR_PIN_LOCKED (0x000000a4)").data)).1
          (classify_cert_pkcs11_error 2 (("CKR_PIN_LOCKED (0x000000a4)").data)).2 :=
  ⟨claim_C4_pkcs11_error_mapping.1 2 _ (by decide),
   claim_C4_pkcs11_error_mapping.2.1 2 _ (by decide),
   claim_C4_pkcs11_error_mapping.2.2.1 2 _ (by decide) (by decide) (.inl (by decide)),
   claim_C4_pkcs11_error_mapping.2.2.2.1 2 _ (by decide) (by decide) (by decide)
     (by decide) (by decide),
   claim_C4_pkcs11_error_mapping.2.2.2.2.1 _ _ (by decide),
   claim_C4_pkcs11_error_mapping.2.2.2.2.2.1 _ _ (by decide),
   claim_C4_pkcs11_error_mapping.2.2.2.2.2.2 _ _ 2 _ rfl rfl rfl (by decide) rfl
     (by decide) rfl rfl⟩

/-! ### C1 -/

/-- C1 counterexample: in /api/certificate, when `session.login(pin)`
raises a PKCS#11 error after `openSession` succeeded, the handler
returns (HTTP 401) with the session still open: there is no
`finally`-equivalent cleanup in this handler, refuting the claim that
every opened session is closed on every path. -/
theorem claim_C1_counterexample :
    (api_get_certificate { certEnvBase with
        login := some (.pkcs11 (("CKR_PIN_INCORRECT (0x000000a0)").data)) }).session_open
      = true
    ∧ (api_get_certificate { certEnvBase with
        login := some (.pkcs11 (("CKR_PIN_INCORRECT (0x000000a0)").data)) }).outcome
      = .json 401 (("Incorrect PIN. Please check your PIN and try again.").data) := by
  constructor <;> decide

/-- C1 amended: /api/sign always closes its session (its `finally` block
runs on every path), and /api/certificate closes its session only when
no step after `openSession` (login, object enumeration, logout/close)
raises. -/
theorem claim_C1_amended_session_cleanup :
    (∀ env : SignEnv, (api_sign_pdf env).session_open = false)
    ∧ (∀ env : CertEnv, env.login = none → env.find_objects = none →
        env.logout = none → (api_get_certificate env).session_open = false) := by
  constructor
  · intro env
    unfold api_sign_pdf sign_try
    repeat' first | rfl | (dsimp only) | split
  · intro env h1 h2 h3
    unfold api_get_certificate
    repeat' first | rfl | (dsimp only) | split
    all_goals simp_all

/-- C1 amended witness: the sign handler closes its session even when the
signing call itself raises, and the certificate handler closes it on the
fully successful path. -/
theorem claim_C1_amended_session_cleanup_witness :
    (api_sign_pdf { signEnvBase with
        sign_result := .error (.other (("SigningError").data) (("broken pdf").data)) }).session_open
      = false
    ∧ (api_get_certificate certEnvBase).session_open = false :=
  ⟨claim_C1_amended_session_cleanup.1 _,
   claim_C1_amended_session_cleanup.2 certEnvBase rfl rfl rfl⟩

/-! ### C3 -/

/-- The try-block of /api/sign never lets an exception escape: every arm
returns a JSON or signed response. -/
theorem sign_try_not_uncaught (env : SignEnv) (s : Int) (p : List Char)
    (g : Geometry) (t : List Char) :
    (sign_try env s p g).outcome ≠ .uncaught t := by
  unfold sign_try
  repeat' first | (dsimp only) | split
  all_goals first | (simp; done) | exact handle_sign_exc_ne_uncaught _ _

/-- C3 counterexample: a non-numeric `slot` value in POST /api/certificate
raises `ValueError` before the `try` block, escaping the handler; and the
certificate handler's generic 500 message is `Error: {str(e)}` which does
not contain the exception type name.  Both refute the claim as stated. -/
theorem claim_C3_counterexample :
    (api_get_certificate { certEnvBase with
        body := some { slot := .malformed (("ValueError").data)
                       pin := some (("1234").data), pkcs11_path := none } }).outcome
      = .uncaught (("ValueError").data)
    ∧ (api_get_certificate { certEnvBase with
        find_objects := some (.other (("RuntimeError").data) (("boom").data)) }).outcome
      = .json 500 (("Error: boom").data)
    ∧ hasSub (("Error: boom").data) (("RuntimeError").data) = false := by
  refine ⟨by decide, by decide, by decide⟩

/-- C3 amended: exceptions raised inside a handler's `try` block always
stay inside the handler (conjuncts 1-2, assuming the numeric form fields
converted before the `try` block are well-formed); a non-PKCS#11
exception becomes an HTTP 500 whose message is `Error: {str(e)}` for
/api/certificate and `{type}: {str(e)}` for /api/sign (conjuncts 3-4);
but a non-numeric slot / page / x / y / width / height value raises
before the `try` block and escapes the handler (conjuncts 5-6). -/
theorem claim_C3_amended_exception_handling :
    (∀ env : CertEnv, (∀ body ty, env.body = some body → body.slot ≠ .malformed ty) →
      ∀ t, (api_get_certificate env).outcome ≠ .uncaught t)
    ∧ (∀ env : SignEnv, (∀ ty, env.form_slot ≠ .malformed ty) →
      (∀ ty, compute_geometry (parse_boxes env.signature_boxes) env.form_visible
        env.form_page env.form_x env.form_y env.form_width env.form_height ≠ .error ty) →
      ∀ t, (api_sign_pdf env).outcome ≠ .uncaught t)
    ∧ (∀ s ty msg, cert_exc s (.other ty msg) = .json 500 ((("Error: ").data) ++ msg))
    ∧ (∀ ty msg, msg ≠ [] →
      handle_sign_exc (.other ty msg) = .json 500 (ty ++ ((": ").data) ++ msg))
    ∧ (∀ env : CertEnv, ∀ body ty, env.pkcs11_available = true →
      env.body = some body → body.slot = .malformed ty →
      (api_get_certificate env).outcome = .uncaught ty)
    ∧ (∀ env : SignEnv, ∀ ty, env.pyhanko_available = true → env.has_pdf = true →
      env.form_slot = .malformed ty →
      (api_sign_pdf env).outcome = .uncaught ty) := by
  refine ⟨?_, ?_, ?_, ?_, ?_, ?_⟩
  · intro env hslot t
    unfold api_get_certificate
    split
    · simp
    split
    · simp
    rename_i body hbody
    rcases hs : body.slot with _ | n | ty2
    case malformed => exact absurd hs (hslot body ty2 hbody)
    all_goals
      dsimp only [getInt]
      repeat' first | (dsimp only) | split
      all_goals first | (simp; done) | exact cert_exc_ne_uncaught _ _ _
  · intro env hslot hgeom t
    unfold api_sign_pdf
    split
    · simp
    split
    · simp
    rcases hs : env.form_slot with _ | n | ty2
    case malformed => exact absurd hs (hslot ty2)
    all_goals
      dsimp only [getInt]
      split
    all_goals first
      | (rename_i ty3 heq; exact absurd heq (hgeom ty3))
      | (split <;> first | (simp; done) | exact sign_try_not_uncaught _ _ _ _ _)
  · intro s ty msg; rfl
  · intro ty msg h
    have hb : msg.isEmpty = false := by simp [List.isEmpty_iff, h]
    simp [handle_sign_exc, hb]
  · intro env body ty hav hbody hslot
    simp [api_get_certificate, hav, hbody, hslot, getInt]
  · intro env ty hpy hpdf hslot
    simp [api_sign_pdf, hpy, hpdf, hslot, getInt]

/-- C3 amended witness: with well-formed numeric fields nothing escapes,
even when the driver raises mid-request; the /api/sign generic message
carries the type name; and the concrete malformed-slot requests escape. -/
theorem claim_C3_amended_exception_handling_witness :
    (api_get_certificate { certEnvBase with
        open_session := some (.other (("OSError").data) (("cannot load").data)) }).outcome
      ≠ .uncaught (("ValueError").data)
    ∧ handle_sign_exc (.other (("TypeError").data) (("bad arg").data))
      = .json 500 ((("TypeError").data) ++ ((": ").data) ++ (("bad arg").data))
    ∧ (api_sign_pdf { signEnvBase with
        form_slot := .malformed (("ValueError").data) }).outcome
      = .uncaught (("ValueError").data) :=
  ⟨claim_C3_amended_exception_handling.1 _ (fun body ty h => by cases h; simp) _,
   claim_C3_amended_exception_handling.2.2.2.1 _ _ (by decide),
   claim_C3_amended_exception_handling.2.2.2.2.2 _ _ rfl rfl rfl⟩

/-! ### C6 -/

/-- C6: with a valid slot and PIN (and a normally functioning driver and
parseable certificates), /api/certificate returns the list describing
each certificate by label, subject, issuer, expiry and base64 DER; an
empty or missing PIN yields HTTP 400; a slot id not among the present
slots yields HTTP 400. -/
theorem claim_C6_certificate_listing :
    (∀ env body slot_id, env.pkcs11_available = true → env.body = some body →
      getInt body.slot 2 = .ok slot_id →
      pyStrip (body.pin.getD []) ≠ [] →
      env.lib_load = none → slot_id ∈ env.available_slots →
      env.open_session = none → env.login = none → env.find_objects = none →
      env.logout = none →
      (∀ c ∈ env.certs, c.parsed.isSome) →
      (api_get_certificate env).outcome = .certificates (env.certs.map make_cert_entry)
      ∧ ∀ c ∈ env.certs,
          (make_cert_entry c).label = decode_label c.raw_label
          ∧ (make_cert_entry c).subject.isSome
          ∧ (make_cert_entry c).issuer.isSome
          ∧ (make_cert_entry c).valid_until.isSome
          ∧ (make_cert_entry c).der_base64 = b64encode c.der)
    ∧ (∀ env body, env.pkcs11_available = true → env.body = some body →
      (∀ ty, body.slot ≠ .malformed ty) →
      pyStrip (body.pin.getD []) = [] →
      (api_get_certificate env).outcome = .json 400 (("PIN required").data))
    ∧ (∀ env body slot_id, env.pkcs11_available = true → env.body = some body →
      getInt body.slot 2 = .ok slot_id →
      pyStrip (body.pin.getD []) ≠ [] →
      env.lib_load = none → slot_id ∉ env.available_slots →
      ∃ m, (api_get_certificate env).outcome = .json 400 m) := by
  refine ⟨?_, ?_, ?_⟩
  · intro env body slot_id hav hbody hslot hpin hlib hmem hopen hlogin hfind hlogout hparse
    have hpinb : (pyStrip (body.pin.getD [])).isEmpty = false := by
      simp [List.isEmpty_iff, hpin]
    refine ⟨?_, ?_⟩
    · simp [api_get_certificate, hav, hbody, hslot, hpinb, hlib, hmem, hopen,
        hlogin, hfind, hlogout]
    · intro c hc
      rcases hp : c.parsed with _ | p
      · exact absurd (hparse c hc) (by simp [hp])
      · simp [make_cert_entry, hp]
  · intro env body hav hbody hslot hpin
    rcases hs : body.slot with _ | n | ty
    case malformed => exact absurd hs (hslot ty)
    all_goals
      have hpinb : (pyStrip (body.pin.getD [])).isEmpty = true := by
        simp [List.isEmpty_iff, hpin]
      simp [api_get_certificate, hav, hbody, hs, getInt, hpinb]
  · intro env body slot_id hav hbody hslot hpin hlib hmem
    have hpinb : (pyStrip (body.pin.getD [])).isEmpty = false := by
      simp [List.isEmpty_iff, hpin]
    refine ⟨("Slot ").data ++ intChars slot_id ++ (" not available. Available slots: ").data
      ++ intListChars env.available_slots
      ++ (". Please click \"Detect Smart Card\" again.").data, ?_⟩
    simp [api_get_certificate, hav, hbody, hslot, hpinb, hlib, hmem]

/-- C6 witness: the baseline environment lists its single certificate with
all five fields, an empty PIN is rejected with 400, and an absent slot id
is rejected with 400. -/
theorem claim_C6_certificate_listing_witness :
    ((api_get_certificate certEnvBase).outcome
      = .certificates (certEnvBase.certs.map make_cert_entry)
      ∧ ∀ c ∈ certEnvBase.certs,
          (make_cert_entry c).label = decode_label c.raw_label
          ∧ (make_cert_entry c).subject.isSome
          ∧ (make_cert_entry c).issuer.isSome
          ∧ (make_cert_entry c).valid_until.isSome
          ∧ (make_cert_entry c).der_base64 = b64encode c.der)
    ∧ (api_get_certificate { certEnvBase with
        body := some { slot := .val 2, pin := some (("   ").data)
                       pkcs11_path := none } }).outcome
      = .json 400 (("PIN required").data)
    ∧ ∃ m, (api_get_certificate { certEnvBase with
        body := some { slot := .val 7, pin := some (("1234").data)
                       pkcs11_path := none } }).outcome = .json 400 m :=
  ⟨claim_C6_certificate_listing.1 certEnvBase _ 2 rfl rfl rfl (by decide) rfl
      (by decide) rfl rfl rfl rfl (by decide),
   claim_C6_certificate_listing.2.1 _ _ rfl rfl (fun ty h => by cases h) (by decide),
   claim_C6_certificate_listing.2.2 _ _ 7 rfl rfl rfl (by decide) rfl (by decide)⟩

/-! ### C2 -/

/-- C2: for a /api/sign request with a visible signature box on page `p`
at top-left coordinates `(x, y)` of size `w × h`, the field rectangle
passed to the signing library is `(x, H - y - h, x + w, H - y)` where `H`
is `media_box[3] - media_box[1]` of page `p`'s media box (`792 - 0` when
the `/MediaBox` key is absent); on success the response carries the
signed bytes base64-encoded and their byte length as `size`. -/
theorem claim_C2_visible_box_geometry
    (env : SignEnv) (p : Int) (x y w h : ℚ) (rest : List SigBox)
    (mb : Option MediaBox) (slot_id : Int) (out : List Nat)
    (hpy : env.pyhanko_available = true) (hpdf : env.has_pdf = true)
    (hslot : getInt env.form_slot 2 = .ok slot_id)
    (hboxes : env.signature_boxes
      = .parsed (⟨.val p, .val x, .val y, .val w, .val h⟩ :: rest))
    (hpin : pyStrip (env.form_pin.getD []) ≠ [])
    (hlib : env.lib_load = none) (hmem : slot_id ∈ env.slot_ids)
    (hopen : env.open_session = none) (hreader : env.reader = none)
    (hpage : pyIndex env.pdf_pages (p - 1) = some mb)
    (hsign : env.sign_result = .ok out) :
    (api_sign_pdf env).appended_field
      = some (p - 1, (x, page_height_of mb - y - h, x + w, page_height_of mb - y))
    ∧ (api_sign_pdf env).outcome
      = .signed ((("signed_").data) ++ env.secure_name) (b64encode out) out.length
    ∧ page_height_of none = 792
    ∧ (∀ a b c d : ℚ, page_height_of (some (a, b, c, d)) = d - b) := by
  have hpinb : (pyStrip (env.form_pin.getD [])).isEmpty = false := by
    simp [List.isEmpty_iff, hpin]
  have hgeom : compute_geometry (parse_boxes env.signature_boxes) env.form_visible
      env.form_page env.form_x env.form_y env.form_width env.form_height
      = .ok ⟨true, p - 1, x, y, w, h⟩ := by
    rw [hboxes]; rfl
  have hq : page_height_of mb - y - h + h = page_height_of mb - y := by ring
  refine ⟨?_, ?_, by norm_num [page_height_of], fun a b c d => rfl⟩ <;>
    simp [api_sign_pdf, sign_try, hpy, hpdf, hslot, hgeom, hpinb, hlib, hmem,
      hopen, hreader, hpage, hsign, hq]

/-- C2 witness: a box on page 1 at (10, 20) of size 100 × 50 on a US
Letter page produces the rectangle (10, 722, 110, 772), and the signed
bytes come back base64-encoded with their length. -/
theorem claim_C2_visible_box_geometry_witness :
    (api_sign_pdf { signEnvBase with
        signature_boxes := .parsed [⟨.val 1, .val 10, .val 20, .val 100, .val 50⟩] }).appended_field
      = some ((1 : Int) - 1, (10, page_height_of (some (0, 0, 612, 792)) - 20 - 50,
          10 + 100, page_height_of (some (0, 0, 612, 792)) - 20))
    ∧ (api_sign_pdf { signEnvBase with
        signature_boxes := .parsed [⟨.val 1, .val 10, .val 20, .val 100, .val 50⟩] }).outcome
      = .signed ((("signed_").data) ++ signEnvBase.secure_name)
          (b64encode [37, 80, 68, 70, 45]) 5 :=
  ⟨(claim_C2_visible_box_geometry { signEnvBase with
        signature_boxes := .parsed [⟨.val 1, .val 10, .val 20, .val 100, .val 50⟩] }
      1 10 20 100 50 [] (some (0, 0, 612, 792)) 2
      [37, 80, 68, 70, 45] rfl rfl rfl rfl (by decide) rfl (by decide) rfl rfl
      (by decide) rfl).1,
   (claim_C2_visible_box_geometry { signEnvBase with
        signature_boxes := .parsed [⟨.val 1, .val 10, .val 20, .val 100, .val 50⟩] }
      1 10 20 100 50 [] (some (0, 0, 612, 792)) 2
      [37, 80, 68, 70, 45] rfl rfl rfl rfl (by decide) rfl (by decide) rfl rfl
      (by decide) rfl).2.1⟩

/-! ### C9 -/

/-- C9: when `signature_boxes` parses to a non-empty list, only the first
box determines page and geometry (later boxes and the individual form
fields are ignored) and visibility is forced on; malformed JSON and an
empty list both reduce to no boxes, in which case the individual form
fields apply with defaults page 1, x 50, y 50, width 200, height 70, and
the handler behaves exactly as if `signature_boxes` had been absent
rather than returning an error. -/
theorem claim_C9_first_box_and_silent_fallback :
    (∀ p x y w h rest fv fp fx fy fw fh,
      compute_geometry (⟨.val p, .val x, .val y, .val w, .val h⟩ :: rest) fv fp fx fy fw fh
        = .ok ⟨true, p - 1, x, y, w, h⟩)
    ∧ (parse_boxes .malformed = [] ∧ parse_boxes (.parsed []) = []
        ∧ parse_boxes .missing = [])
    ∧ (∀ fv, compute_geometry [] fv .missing .missing .missing .missing .missing
        = .ok ⟨fv.getD (("true").data) = ("true").data, 1 - 1, 50, 50, 200, 70⟩)
    ∧ (∀ env : SignEnv, api_sign_pdf { env with signature_boxes := .malformed }
        = api_sign_pdf { env with signature_boxes := .missing })
    ∧ (∀ env : SignEnv, api_sign_pdf { env with signature_boxes := .parsed [] }
        = api_sign_pdf { env with signature_boxes := .missing }) :=
  ⟨fun _ _ _ _ _ _ _ _ _ _ _ _ => rfl,
   ⟨rfl, rfl, rfl⟩,
   fun _ => rfl,
   fun _ => rfl,
   fun _ => rfl⟩

/-! ### C7: injectivity of the numeric-suffix scheme and freshness -/

/-- Decimal digit characters are distinct for digits below 10. -/
theorem digitChar_injOn {a b : Nat} (ha : a < 10) (hb : b < 10)
    (h : digitChar a = digitChar b) : a = b := by
  interval_cases a <;> interval_cases b <;>
    first | rfl | exact absurd h (by decide)

/-- Mapping `digitChar` over digit lists is injective. -/
theorem map_digitChar_inj : ∀ {l₁ l₂ : List Nat}, (∀ d ∈ l₁, d < 10) →
    (∀ d ∈ l₂, d < 10) → l₁.map digitChar = l₂.map digitChar → l₁ = l₂
  | [], [], _, _, _ => rfl
  | [], _ :: _, _, _, h => by simp at h
  | _ :: _, [], _, _, h => by simp at h
  | a :: t₁, b :: t₂, h₁, h₂, h => by
      simp only [List.map_cons, List.cons.injEq] at h
      have ha := digitChar_injOn (h₁ a (by simp)) (h₂ b (by simp)) h.1
      have ht := map_digitChar_inj (fun d hd => h₁ d (by simp [hd]))
        (fun d hd => h₂ d (by simp [hd])) h.2
      rw [ha, ht]

/-- A nonzero number never prints as the single character 0. -/
theorem natChars_ne_zero_str {n : Nat} (hn : n ≠ 0)
    (h : natChars n = ['0']) : False := by
  unfold natChars at h
  rw [if_neg hn] at h
  have h2 : (Nat.digits 10 n).map digitChar = ['0'] := by
    have := congrArg List.reverse h
    simpa using this
  have hlen : (Nat.digits 10 n).length = 1 := by
    have := congrArg List.length h2
    simpa using this
  obtain ⟨d, hd⟩ := List.length_eq_one.mp hlen
  rw [hd] at h2
  simp only [List.map_cons, List.map_nil, List.cons.injEq, and_true] at h2
  have hdlt : d < 10 := Nat.digits_lt_base (by norm_num) (by rw [hd]; simp)
  have hd0 : d = 0 := digitChar_injOn hdlt (by norm_num) (by simpa [digitChar] using h2)
  have hof := Nat.ofDigits_digits 10 n
  rw [hd, hd0] at hof
  simp [Nat.ofDigits] at hof
  exact hn hof.symm

/-- Python decimal printing of naturals is injective. -/
theorem natChars_injective : Function.Injective natChars := by
  intro m n h
  by_cases hm : m = 0 <;> by_cases hn : n = 0
  · rw [hm, hn]
  · exfalso
    refine natChars_ne_zero_str hn ?_
    rw [← h, hm]
    rfl
  · exfalso
    refine natChars_ne_zero_str hm ?_
    rw [h, hn]
    rfl
  · unfold natChars at h
    rw [if_neg hm, if_neg hn] at h
    have h2 := List.reverse_injective h
    have h3 := map_digitChar_inj
      (fun d hd => Nat.digits_lt_base (by norm_num) hd)
      (fun d hd => Nat.digits_lt_base (by norm_num) hd) h2
    have h4 := congrArg (Nat.ofDigits 10) h3
    rwa [Nat.ofDigits_digits, Nat.ofDigits_digits] at h4

/-- The candidate names `base_k.ext` are pairwise distinct. -/
theorem nextName_inj (base ext : List Char) {j k : Nat}
    (h : nextName base j ext = nextName base k ext) : j = k := by
  unfold nextName at h
  have h1 := List.append_cancel_left h
  simp only [List.cons.injEq, true_and] at h1
  exact natChars_injective (List.append_cancel_right h1)

/-- If the dedup loop answers a name that still exists, its starting
candidate already existed. -/
theorem dedupLoop_mem_start (existing : List (List Char)) (base ext : List Char)
    (fuel : Nat) (cur : List Char) (k : Nat)
    (h : dedupLoop existing base ext fuel cur k ∈ existing) : cur ∈ existing := by
  cases fuel with
  | zero => exact h
  | succ f =>
    unfold dedupLoop at h
    by_cases hc : cur ∈ existing
    · exact hc
    · rw [if_neg hc] at h
      exact absurd h hc

/-- If the dedup loop answers a name that still exists, every candidate it
could have tried already existed. -/
theorem dedupLoop_mem_all (existing : List (List Char)) (base ext : List Char) :
    ∀ fuel cur k, dedupLoop existing base ext fuel cur k ∈ existing →
      ∀ j, j < fuel → nextName base (k + j) ext ∈ existing := by
  intro fuel
  induction fuel with
  | zero => intro cur k _ j hj; exact absurd hj (Nat.not_lt_zero j)
  | succ f ih =>
    intro cur k h j hj
    unfold dedupLoop at h
    by_cases hc : cur ∈ existing
    · rw [if_pos hc] at h
      cases j with
      | zero =>
        simpa using dedupLoop_mem_start existing base ext f (nextName base k ext) (k + 1) h
      | succ j2 =>
        have hj2 : j2 < f := by omega
        have := ih (nextName base k ext) (k + 1) h j2 hj2
        have heq : k + (j2 + 1) = k + 1 + j2 := by omega
        rwa [heq]
    · rw [if_neg hc] at h
      exact absurd h hc

/-- The deduplicated name is never one of the existing names: among the
`|existing| + 1` pairwise-distinct numeric-suffix candidates the loop may
try, at least one is fresh, and the loop stops at the first fresh one. -/
theorem dedup_name_not_mem (existing : List (List Char)) (path : List Char) :
    dedup_name existing path ∉ existing := by
  intro hmem
  unfold dedup_name at hmem
  have hall := dedupLoop_mem_all existing (pySplitext path).1 (pySplitext path).2
    (existing.length + 1) path 1 hmem
  have hnodup : ((List.range (existing.length + 1)).map
      (fun j => nextName (pySplitext path).1 (1 + j) (pySplitext path).2)).Nodup := by
    refine List.Nodup.map ?_ (List.nodup_range _)
    intro j₁ j₂ hEq
    have := nextName_inj (pySplitext path).1 (pySplitext path).2 hEq
    omega
  have hsub : ((List.range (existing.length + 1)).map
      (fun j => nextName (pySplitext path).1 (1 + j) (pySplitext path).2)) ⊆ existing := by
    intro a ha
    rw [List.mem_map] at ha
    obtain ⟨j, hj, rfl⟩ := ha
    rw [List.mem_range] at hj
    exact hall j hj
  have hle := (hnodup.subperm hsub).length_le
  simp only [List.length_map, List.length_range] at hle
  omega

/-- C7 counterexample: two files that share a name produce a zip whose
entry names are NOT deduplicated — both entries are written under the
same name, refuting the claim that names inside the archive are
deduplicated like the archive name itself. -/
theorem claim_C7_counterexample :
    (api_save_files { body := some [⟨("a.pdf").data, [1]⟩, ⟨("a.pdf").data, [2]⟩]
                      downloads_existing := [] }).zip_written
      = some ((("signed_documents.zip").data),
          [((("a.pdf").data), [1]), ((("a.pdf").data), [2])])
    ∧ (((api_save_files { body := some [⟨("a.pdf").data, [1]⟩, ⟨("a.pdf").data, [2]⟩]
                          downloads_existing := [] }).zip_written.getD
          ([], [])).2.map Prod.fst)
      = [(("a.pdf").data), (("a.pdf").data)]
    ∧ ¬ ([(("a.pdf").data), (("a.pdf").data)] : List (List Char)).Nodup := by
  refine ⟨by decide, by decide, by decide⟩

/-- C7 amended: a single file is saved directly and several (or zero)
files go into one `signed_documents.zip`; the name written to Downloads
is in both cases deduplicated with a numeric suffix and never collides
with an existing file — but the entry names inside the archive keep the
caller-supplied names verbatim, duplicates included. -/
theorem claim_C7_amended_save_dedup :
    (∀ env f, env.body = some [f] →
      (api_save_files env).written_single
        = some (dedup_name env.downloads_existing f.name, f.data)
      ∧ (api_save_files env).saved_files = [dedup_name env.downloads_existing f.name]
      ∧ dedup_name env.downloads_existing f.name ∉ env.downloads_existing)
    ∧ (∀ env fs, env.body = some fs → fs.length ≠ 1 →
      (api_save_files env).zip_written
        = some (dedup_name env.downloads_existing (("signed_documents.zip").data),
            fs.map (fun f => (f.name, f.data)))
      ∧ dedup_name env.downloads_existing (("signed_documents.zip").data)
          ∉ env.downloads_existing) := by
  constructor
  · intro env f hbody
    refine ⟨?_, ?_, dedup_name_not_mem _ _⟩ <;> simp [api_save_files, hbody]
  · intro env fs hbody hlen
    refine ⟨?_, dedup_name_not_mem _ _⟩
    rcases fs with _ | ⟨a, _ | ⟨b, t⟩⟩
    · simp [api_save_files, hbody]
    · exact absurd rfl hlen
    · simp [api_save_files, hbody]

/-- C7 amended witness: a single saved file and a three-file archive, in
an environment where collisions exist, keep fresh names on disk while
the archive entries keep their given names. -/
theorem claim_C7_amended_save_dedup_witness :
    ((api_save_files (⟨some [⟨("a.pdf").data, [1]⟩],
        [(("a.pdf").data), (("a_1.pdf").data)]⟩ : SaveEnv)).written_single
      = some (dedup_name [(("a.pdf").data), (("a_1.pdf").data)] (("a.pdf").data), [1])
      ∧ dedup_name [(("a.pdf").data), (("a_1.pdf").data)] (("a.pdf").data)
          ∉ [(("a.pdf").data), (("a_1.pdf").data)])
    ∧ ((api_save_files (⟨some [⟨("a.pdf").data, [1]⟩, ⟨("b.pdf").data, [2]⟩],
        [(("signed_documents.zip").data)]⟩ : SaveEnv)).zip_written
      = some (dedup_name [(("signed_documents.zip").data)] (("signed_documents.zip").data),
          [((("a.pdf").data), [1]), ((("b.pdf").data), [2])])
      ∧ dedup_name [(("signed_documents.zip").data)] (("signed_documents.zip").data)
          ∉ [(("signed_documents.zip").data)]) :=
  ⟨⟨(claim_C7_amended_save_dedup.1 (⟨some [⟨("a.pdf").data, [1]⟩],
        [(("a.pdf").data), (("a_1.pdf").data)]⟩ : SaveEnv) _ rfl).1,
    (claim_C7_amended_save_dedup.1 (⟨some [⟨("a.pdf").data, [1]⟩],
        [(("a.pdf").data), (("a_1.pdf").data)]⟩ : SaveEnv) _ rfl).2.2⟩,
   ⟨(claim_C7_amended_save_dedup.2 (⟨some [⟨("a.pdf").data, [1]⟩, ⟨("b.pdf").data, [2]⟩],
        [(("signed_documents.zip").data)]⟩ : SaveEnv) _ rfl (by decide)).1,
    (claim_C7_amended_save_dedup.2 (⟨some [⟨("a.pdf").data, [1]⟩, ⟨("b.pdf").data, [2]⟩],
        [(("signed_documents.zip").data)]⟩ : SaveEnv) _ rfl (by decide)).2⟩⟩

/-! ### C10 -/

/-- C10: an empty `files` list is not rejected: the handler takes the
multiple-files branch, records an empty `signed_documents.zip` archive
under a deduplicated name, saves no individual file, and reports
success. -/
theorem claim_C10_empty_files_success (env : SaveEnv) (h : env.body = some []) :
    (api_save_files env).status = 200
    ∧ (api_save_files env).error = none
    ∧ (api_save_files env).zip_written
        = some (dedup_name env.downloads_existing (("signed_documents.zip").data), [])
    ∧ (api_save_files env).written_single = none
    ∧ (api_save_files env).saved_files
        = [dedup_name env.downloads_existing (("signed_documents.zip").data)] := by
  refine ⟨?_, ?_, ?_, ?_, ?_⟩ <;> simp [api_save_files, h]

/-- C10 witness: the empty-list request against a Downloads folder that
already holds a `signed_documents.zip`. -/
theorem claim_C10_empty_files_success_witness :
    (api_save_files (⟨some [], [(("signed_documents.zip").data)]⟩ : SaveEnv)).status = 200
    ∧ (api_save_files (⟨some [], [(("signed_documents.zip").data)]⟩ : SaveEnv)).error = none
    ∧ (api_save_files (⟨some [], [(("signed_documents.zip").data)]⟩ : SaveEnv)).zip_written
      = some (dedup_name [(("signed_documents.zip").data)] (("signed_documents.zip").data), [])
    ∧ (api_save_files (⟨some [], [(("signed_documents.zip").data)]⟩ : SaveEnv)).written_single = none :=
  ⟨(claim_C10_empty_files_success _ rfl).1,
   (claim_C10_empty_files_success _ rfl).2.1,
   (claim_C10_empty_files_success _ rfl).2.2.1,
   (claim_C10_empty_files_success _ rfl).2.2.2.1⟩
